import Mathlib

/-!
Verification development for the `avi-device` repository: a shallow
embedding of the embedded UDP bridge (`src/src/bridge.rs`), the compact
wire protocol (`src/protocol/src/lib.rs`, serialised with the postcard
format), and the handle API (`src/p2p/src/node.rs`), together with
theorems settling the specification's claims about them.

Machine integers are modelled as `Nat`/`Int` carrying the Rust type's
range as a well-formedness predicate where the wire format depends on
it.  `f32` fields are modelled by their 32-bit pattern (a `Nat < 2^32`),
which is exactly what the postcard wire format transports.  Strings are
modelled at the granularity of Unicode code points; the well-formedness
predicate restricts wire strings to ASCII, on which one code point is
one UTF-8 byte, so the modelled byte stream coincides with the real one.
-/

namespace AviDevice

/-- JSON values (`serde_json::Value`).  Objects are association lists in
insertion order; numbers of integer origin are `numI`, numbers that come
from an `f32` are kept as the 32-bit pattern `numF`. -/
inductive Json where
  | null : Json
  | bool (b : Bool) : Json
  | numI (n : Int) : Json
  | numF (bits : Nat) : Json
  | str (s : String) : Json
  | arr (xs : List Json) : Json
  | obj (fields : List (String × Json)) : Json
deriving Repr

/-- Model of `serde_json::Value::get(key)`: `some` only on objects that contain
the key (first binding wins), `none` otherwise. -/
def Json.get : Json → String → Option Json
  | .obj fields, key =>
    match fields.find? (fun p => p.1 == key) with
    | some p => some p.2
    | none => none
  | _, _ => none

/-- Error kinds of the p2p crate.  `src/p2p/src/error.rs` is not under
`src/`; the variants are the error taxonomy of the spec (§7), which
covers every variant the sources under `src/` construct
(`NetworkError`, `ChannelClosed`, `Serialization`). -/
inductive AviP2pError where
  | NetworkError (detail : String)
  | ChannelClosed
  | StreamNotFound (id : String)
  | InvalidStreamState (id : String)
  | Backpressure
  | PeerNotConnected (peer : String)
  | Serialization (detail : String)
  | PathNotFound (path : String)
deriving Repr, DecidableEq

/-- Peer identity: `PeerId::new` wraps a string; peers are compared by that identity. -/
abbrev PeerId := String

/-- Logical stream ids are opaque strings
(`<initiator>-<counter>-<suffix>` per the spec). -/
abbrev StreamId := String

/-- Socket addresses are opaque, decidably equal keys of the session
table. -/
abbrev SocketAddr := Nat

/-! ## Wire protocol (`src/protocol/src/lib.rs`) -/

inductive PressType where
  | Single
  | Double
  | Long
deriving Repr, DecidableEq

/-- Sensor readings (`SensorValue`): the `f32` payloads of `Temperature` and `Humidity`
are carried as their 32-bit patterns. -/
inductive SensorValue where
  | Temperature (bits : Nat)
  | Humidity (bits : Nat)
  | Battery (v : Nat)
  | Status (v : Bool)
  | Raw (v : Int)
deriving Repr, DecidableEq

/-- Uplink frames (`UplinkMessage`): embedded-device-to-bridge frames.  Byte-slice data
is a list of byte values. -/
inductive UplinkMessage where
  | Hello (device_id : Nat)
  | StreamStart (local_stream_id : Nat) (target_peer_id : String) (reason : String)
  | StreamData (local_stream_id : Nat) (data : List Nat)
  | StreamClose (local_stream_id : Nat)
  | ButtonPress (button_id : Nat) (press_type : PressType)
  | SensorUpdate (sensor_name : String) (data : SensorValue)
deriving Repr, DecidableEq

/-- Downlink frames (`DownlinkMessage`): bridge-to-device frames. -/
inductive DownlinkMessage where
  | Welcome
  | Error (reason : Nat)
deriving Repr, DecidableEq

/-! ## Bridge state (`src/src/bridge.rs`) -/

/-- Session state (`DeviceSession`): per-address state of the bridge.  The
`active_streams` hash map is an association list from the device's local
`u8` stream id to the mesh `StreamId`; keys are unique by construction
(insertion replaces). -/
structure DeviceSession where
  device_id : Nat
  active_streams : List (Nat × StreamId)
deriving Repr, DecidableEq

/-- Lookup in an association list, first match (hash-map `get`). -/
def assocGet {β : Type} (m : List (Nat × β)) (k : Nat) : Option β :=
  match m.find? (fun p => p.1 == k) with
  | some p => some p.2
  | none => none

/-- Hash-map `insert`: replaces any existing binding for the key. -/
def assocInsert {β : Type} (m : List (Nat × β)) (k : Nat) (v : β) : List (Nat × β) :=
  (k, v) :: m.filter (fun p => !(p.1 == k))

/-- Hash-map `remove`: drops the binding for the key. -/
def assocRemove {β : Type} (m : List (Nat × β)) (k : Nat) : List (Nat × β) :=
  m.filter (fun p => !(p.1 == k))

/-- The bridge's session table `HashMap<SocketAddr, DeviceSession>`. -/
abbrev Sessions := List (SocketAddr × DeviceSession)

def lookupSession (st : Sessions) (addr : SocketAddr) : Option DeviceSession :=
  assocGet st addr

def insertSession (st : Sessions) (addr : SocketAddr) (s : DeviceSession) : Sessions :=
  assocInsert st addr s

/-- In-place mutation through `get_mut`: replace the session stored at
`addr` (used only when the lookup succeeded). -/
def replaceSession (st : Sessions) (addr : SocketAddr) (s : DeviceSession) : Sessions :=
  st.map (fun p => if p.1 = addr then (addr, s) else p)

/-- Observable side effects of one `handle_packet` call: calls on the
`AviP2pHandle` and downlink datagrams sent on the UDP socket.  Publish
payloads are modelled at the `Json` level (the code sends their
canonical `serde_json` byte serialisation).  `requestStream` records the
reason argument the bridge passes to the handle; `bridge.rs` line 109
calls `handle.request_stream(peer_id)` with no reason (its match arm at
line 95 also omits the frame's `reason` field), even though
`node.rs` declares `request_stream(peer_id, reason)`, so the bridge is
modelled as passing `none`. -/
inductive Effect where
  | requestStream (peer : PeerId) (reason : Option String)
  | sendStreamData (id : StreamId) (data : List Nat)
  | closeStream (id : StreamId)
  | publish (topic : String) (payload : Json)
  | sendTo (addr : SocketAddr) (msg : DownlinkMessage)
deriving Repr

/-- Debug formatting (`{:?}`) of `PressType`. -/
def PressType.debugStr : PressType → String
  | .Single => "Single"
  | .Double => "Double"
  | .Long => "Long"

/-- The JSON `value` of a `SensorUpdate` publish
(`bridge.rs` lines 172-178). -/
def SensorValue.toJson : SensorValue → Json
  | .Temperature v => .numF v
  | .Humidity v => .numF v
  | .Battery v => .numI v
  | .Status v => .bool v
  | .Raw v => .numI v

/-- The JSON `unit` of a `SensorUpdate` publish
(`bridge.rs` lines 182-186). -/
def SensorValue.unitStr : SensorValue → String
  | .Temperature _ => "C"
  | .Humidity _ => "%"
  | _ => ""

/-- Embedding of `EmbeddedBridge::handle_packet` (`bridge.rs` lines 66-201) as a pure
step: it takes the outcome function of `handle.request_stream` (the
runtime's reply), the current Unix timestamp `now`, the parsed frame,
the sender address and the session table, and returns the new table and
the list of side effects in issue order. -/
def handlePacket (req : PeerId → Except String StreamId) (now : Nat)
    (msg : UplinkMessage) (addr : SocketAddr) (st : Sessions) :
    Sessions × List Effect :=
  match msg with
  | .Hello device_id =>
    (insertSession st addr ⟨device_id, []⟩, [.sendTo addr .Welcome])
  | .StreamStart local_stream_id target_peer_id _reason =>
    match lookupSession st addr with
    | none => (st, [])
    | some session =>
      if target_peer_id = "" then (st, [])
      else
        match req target_peer_id with
        | .ok mesh_stream_id =>
          (replaceSession st addr
            { session with
              active_streams := assocInsert session.active_streams local_stream_id mesh_stream_id },
           [.requestStream target_peer_id none])
        | .error _ => (st, [.requestStream target_peer_id none])
  | .StreamData local_stream_id data =>
    match lookupSession st addr with
    | none => (st, [])
    | some session =>
      match assocGet session.active_streams local_stream_id with
      | none => (st, [])
      | some mesh_id => (st, [.sendStreamData mesh_id data])
  | .StreamClose local_stream_id =>
    match lookupSession st addr with
    | none => (st, [])
    | some session =>
      match assocGet session.active_streams local_stream_id with
      | none => (st, [])
      | some mesh_id =>
        (replaceSession st addr
          { session with active_streams := assocRemove session.active_streams local_stream_id },
         [.closeStream mesh_id])
  | .ButtonPress button_id press_type =>
    match lookupSession st addr with
    | none => (st, [])
    | some session =>
      (st, [.publish ("avi/home/device_" ++ toString session.device_id ++ "/button")
              (.obj [("button_id", .numI button_id),
                     ("type", .str press_type.debugStr),
                     ("ts", .numI now)])])
  | .SensorUpdate sensor_name data =>
    match lookupSession st addr with
    | none => (st, [])
    | some session =>
      (st, [.publish ("avi/home/device_" ++ toString session.device_id ++ "/sensor/" ++ sensor_name)
              (.obj [("value", data.toJson),
                     ("unit", .str data.unitStr),
                     ("ts", .numI now)])])

/-! ## Handle API (`src/p2p/src/node.rs`) -/

/-- The channel environment one handle operation runs in: whether the
`mpsc` send onto the command queue succeeds, and the reply that arrives
on the freshly created one-shot channel (`none` when the runtime drops
the sender before replying). -/
structure ChannelEnv (α : Type) where
  sendOk : Bool
  reply : Option (Except AviP2pError α)

/-- The common body of every command-sending handle operation
(`node.rs` lines 143-153 and its clones through line 326): send the
command, mapping a send failure to `ChannelClosed`; await the one-shot,
mapping a dropped channel to `ChannelClosed`; return the runtime's
reply. -/
def sendCommand {α : Type} (env : ChannelEnv α) : Except AviP2pError α :=
  if env.sendOk then
    match env.reply with
    | some r => r
    | none => .error .ChannelClosed
  else .error .ChannelClosed

/-- Embedding of `AviP2pHandle::subscribe` (`node.rs` 143-153). -/
def subscribe (env : ChannelEnv Unit) (_topic : String) : Except AviP2pError Unit :=
  sendCommand env

/-- Embedding of `AviP2pHandle::publish` (`node.rs` 167-178). -/
def publish (env : ChannelEnv Unit) (_topic : String) (_data : List Nat) :
    Except AviP2pError Unit :=
  sendCommand env

/-- Embedding of `AviP2pHandle::request_stream` (`node.rs` 180-195). -/
def request_stream (env : ChannelEnv StreamId) (_peer : PeerId) (_reason : String) :
    Except AviP2pError StreamId :=
  sendCommand env

/-- Embedding of `AviP2pHandle::get_context` (`node.rs` 316-326). -/
def get_context (env : ChannelEnv Json) (_peer : Option PeerId) : Except AviP2pError Json :=
  sendCommand env

/-- Rust's `str::split('.')` collected to a vector: splits at every
dot, keeping empty segments (so `""` gives `[""]` and `"a."` gives
`["a", ""]`). -/
def splitDotChars : List Char → List Char → List String
  | [], acc => [String.mk acc.reverse]
  | c :: cs, acc =>
    if c = '.' then String.mk acc.reverse :: splitDotChars cs []
    else splitDotChars cs (c :: acc)

def splitDot (s : String) : List String :=
  splitDotChars s.data []

/-- The path walk of `AviP2pHandle::get_ctx` (`node.rs` 328-346) on an
already-fetched context document: empty path returns the whole
document; otherwise split on `.` and follow each key with
`Value::get`, failing with `Serialization("Key '<k>' not found in
context")` at the first absent key. -/
def getCtxWalk : List String → Json → Except AviP2pError Json
  | [], cur => .ok cur
  | key :: keys, cur =>
    match cur.get key with
    | some next => getCtxWalk keys next
    | none => .error (.Serialization ("Key '" ++ key ++ "' not found in context"))

/-- Embedding of `AviP2pHandle::get_ctx` given the result of `get_context(None)`. -/
def get_ctx (ctxResult : Except AviP2pError Json) (path : String) :
    Except AviP2pError Json :=
  match ctxResult with
  | .ok data =>
    if path = "" then .ok data
    else getCtxWalk (splitDot path) data
  | .error e => .error e

/-- Embedding of `AviP2pHandle::has_ctx` (`node.rs` 308-313) given the result of the
inner `get_ctx` call. -/
def has_ctx (r : Except AviP2pError Json) : Except AviP2pError Bool :=
  match r with
  | .ok _ => .ok true
  | .error _ => .ok false

/-- Spec-side path lookup: follow the segments, `none` when any is
absent.  Used to state what subtree a successful walk returns. -/
def followPath : List String → Json → Option Json
  | [], cur => some cur
  | key :: keys, cur =>
    match cur.get key with
    | some next => followPath keys next
    | none => none

/-- Whether a handle-operation result is the `PathNotFound` error
kind. -/
def isPathNotFound : Except AviP2pError Json → Bool
  | .error (.PathNotFound _) => true
  | _ => false

/-! ## Channels created by `AviP2p::start` (`node.rs` 91-120) -/

inductive ChanKind where
  | mpscChan
  | broadcastFanout
  | oneshotChan
deriving Repr, DecidableEq

structure Channel where
  kind : ChanKind
  capacity : Nat
deriving Repr, DecidableEq

/-- Command queue `mpsc::channel(100)` (`node.rs` 91). -/
def commandChannel : Channel := ⟨.mpscChan, 100⟩

/-- Event queue `mpsc::channel(100)` from the runtime to the forwarder task
(`node.rs` 92). -/
def runtimeEventChannel : Channel := ⟨.mpscChan, 100⟩

/-- Event fan-out `broadcast::channel(1000)` (`node.rs` 95). -/
def eventBroadcastChannel : Channel := ⟨.broadcastFanout, 1000⟩

/-- User queue `mpsc::channel(100)` from the forwarder to the user receiver
(`node.rs` 111). -/
def userEventChannel : Channel := ⟨.mpscChan, 100⟩

/-- The shutdown one-shot (`node.rs` 93); capacity 1 by construction. -/
def shutdownChannel : Channel := ⟨.oneshotChan, 1⟩

/-- The channel endpoints stored in `AviP2pHandle` (`node.rs` 25-28 and
106-109): the command queue sender and the event broadcast sender.
These are the only channels a handle shares with the runtime (each
operation additionally creates a transient one-shot reply channel that
travels inside the command itself). -/
def handleSharedChannels : List Channel := [commandChannel, eventBroadcastChannel]

/-! ## Postcard wire format (`postcard::to_slice` / `from_bytes` over
`src/protocol/src/lib.rs`) -/

/-- Unsigned LEB128 varint encoding (postcard's integer encoding for
`u16`-`u64`, `usize` lengths and enum discriminants). -/
def encodeVarint (n : Nat) : List Nat :=
  if h : n < 128 then [n]
  else (n % 128 + 128) :: encodeVarint (n / 128)
termination_by n
decreasing_by exact Nat.div_lt_self (by omega) (by omega)

/-- Unsigned LEB128 varint decoding; returns the value and the unread
remainder. -/
def decodeVarint : List Nat → Option (Nat × List Nat)
  | [] => none
  | b :: rest =>
    if b < 128 then some (b, rest)
    else
      match decodeVarint rest with
      | some (m, r) => some (m * 128 + (b - 128), r)
      | none => none

/-- Zigzag transform of a signed integer (postcard's `i32`
encoding, before the varint). -/
def zigzag (v : Int) : Nat :=
  (if 0 ≤ v then 2 * v else -2 * v - 1).toNat

/-- Inverse zigzag transform. -/
def unzigzag (n : Nat) : Int :=
  if n % 2 = 0 then (n / 2 : Nat) else -(((n / 2 : Nat) : Int) + 1)

/-- One raw byte (postcard's `u8` and `bool` encoding width). -/
def parseByte : List Nat → Option (Nat × List Nat)
  | [] => none
  | b :: rest => some (b, rest)

/-- Boolean wire encoding: one byte, `0` or `1`; anything else is rejected. -/
def parseBool (bs : List Nat) : Option (Bool × List Nat) :=
  match parseByte bs with
  | some (0, rest) => some (false, rest)
  | some (1, rest) => some (true, rest)
  | _ => none

/-- Float wire encoding (`f32`): the 4 little-endian bytes of the bit pattern. -/
def serF32 (bits : Nat) : List Nat :=
  [bits % 256, bits / 256 % 256, bits / 65536 % 256, bits / 16777216 % 256]

def parseF32 : List Nat → Option (Nat × List Nat)
  | b0 :: b1 :: b2 :: b3 :: rest =>
    some (b0 + 256 * b1 + 65536 * b2 + 16777216 * b3, rest)
  | _ => none

/-- String: varint length then the code-point bytes (equal to the UTF-8
bytes on the ASCII strings the well-formedness predicate admits). -/
def serStr (s : String) : List Nat :=
  encodeVarint s.data.length ++ s.data.map Char.toNat

def parseStr (bs : List Nat) : Option (String × List Nat) :=
  match decodeVarint bs with
  | none => none
  | some (len, rest) =>
    if len ≤ rest.length then
      some (String.mk ((rest.take len).map Char.ofNat), rest.drop len)
    else none

/-- Byte slice (`serde_bytes`): varint length then the raw bytes. -/
def serBytes (d : List Nat) : List Nat :=
  encodeVarint d.length ++ d

def parseBytes (bs : List Nat) : Option (List Nat × List Nat) :=
  match decodeVarint bs with
  | none => none
  | some (len, rest) =>
    if len ≤ rest.length then some (rest.take len, rest.drop len)
    else none

/-- Wire form of `PressType`: its variant index as a varint. -/
def serPressType : PressType → List Nat
  | .Single => encodeVarint 0
  | .Double => encodeVarint 1
  | .Long => encodeVarint 2

def parsePressType (bs : List Nat) : Option (PressType × List Nat) :=
  match decodeVarint bs with
  | some (0, rest) => some (.Single, rest)
  | some (1, rest) => some (.Double, rest)
  | some (2, rest) => some (.Long, rest)
  | _ => none

/-- Wire form of `SensorValue`: variant index varint, then the payload
(`f32` little-endian, `u8` raw, `bool` byte, `i32` zigzag varint). -/
def serSensorValue : SensorValue → List Nat
  | .Temperature v => encodeVarint 0 ++ serF32 v
  | .Humidity v => encodeVarint 1 ++ serF32 v
  | .Battery v => encodeVarint 2 ++ [v]
  | .Status v => encodeVarint 3 ++ [if v then 1 else 0]
  | .Raw v => encodeVarint 4 ++ encodeVarint (zigzag v)

def parseSensorValue (bs : List Nat) : Option (SensorValue × List Nat) :=
  match decodeVarint bs with
  | some (0, rest) =>
    match parseF32 rest with
    | some (v, r) => some (.Temperature v, r)
    | none => none
  | some (1, rest) =>
    match parseF32 rest with
    | some (v, r) => some (.Humidity v, r)
    | none => none
  | some (2, rest) =>
    match parseByte rest with
    | some (v, r) => some (.Battery v, r)
    | none => none
  | some (3, rest) =>
    match parseBool rest with
    | some (v, r) => some (.Status v, r)
    | none => none
  | some (4, rest) =>
    match decodeVarint rest with
    | some (n, r) => some (.Raw (unzigzag n), r)
    | none => none
  | _ => none

/-- Wire form of `UplinkMessage`: variant index varint, then the fields
in declaration order. -/
def serUplink : UplinkMessage → List Nat
  | .Hello device_id => encodeVarint 0 ++ encodeVarint device_id
  | .StreamStart lsid target reason => encodeVarint 1 ++ [lsid] ++ serStr target ++ serStr reason
  | .StreamData lsid data => encodeVarint 2 ++ [lsid] ++ serBytes data
  | .StreamClose lsid => encodeVarint 3 ++ [lsid]
  | .ButtonPress bid pt => encodeVarint 4 ++ [bid] ++ serPressType pt
  | .SensorUpdate name data => encodeVarint 5 ++ serStr name ++ serSensorValue data

def parseUplink (bs : List Nat) : Option (UplinkMessage × List Nat) :=
  match decodeVarint bs with
  | some (0, rest) =>
    match decodeVarint rest with
    | some (d, r) => some (.Hello d, r)
    | none => none
  | some (1, rest) =>
    match parseByte rest with
    | some (lsid, r1) =>
      match parseStr r1 with
      | some (target, r2) =>
        match parseStr r2 with
        | some (reason, r3) => some (.StreamStart lsid target reason, r3)
        | none => none
      | none => none
    | none => none
  | some (2, rest) =>
    match parseByte rest with
    | some (lsid, r1) =>
      match parseBytes r1 with
      | some (data, r2) => some (.StreamData lsid data, r2)
      | none => none
    | none => none
  | some (3, rest) =>
    match parseByte rest with
    | some (lsid, r) => some (.StreamClose lsid, r)
    | none => none
  | some (4, rest) =>
    match parseByte rest with
    | some (bid, r1) =>
      match parsePressType r1 with
      | some (pt, r2) => some (.ButtonPress bid pt, r2)
      | none => none
    | none => none
  | some (5, rest) =>
    match parseStr rest with
    | some (name, r1) =>
      match parseSensorValue r1 with
      | some (data, r2) => some (.SensorUpdate name data, r2)
      | none => none
    | none => none
  | _ => none

/-- Wire form of `DownlinkMessage`. -/
def serDownlink : DownlinkMessage → List Nat
  | .Welcome => encodeVarint 0
  | .Error reason => encodeVarint 1 ++ [reason]

def parseDownlink (bs : List Nat) : Option (DownlinkMessage × List Nat) :=
  match decodeVarint bs with
  | some (0, rest) => some (.Welcome, rest)
  | some (1, rest) =>
    match parseByte rest with
    | some (reason, r) => some (.Error reason, r)
    | none => none
  | _ => none

/-- Model of `postcard::from_bytes::<UplinkMessage>`: parse from the front,
trailing bytes are ignored. -/
def deserUplink (bs : List Nat) : Option UplinkMessage :=
  (parseUplink bs).map Prod.fst

/-- Model of `postcard::from_bytes::<DownlinkMessage>`. -/
def deserDownlink (bs : List Nat) : Option DownlinkMessage :=
  (parseDownlink bs).map Prod.fst

/-- An ASCII string: every code point below 128, where one code point
is one UTF-8 byte. -/
def asciiStr (s : String) : Prop := ∀ c ∈ s.data, c.toNat < 128

instance (s : String) : Decidable (asciiStr s) := by
  unfold asciiStr; infer_instance

/-- The Rust-type ranges of a `SensorValue`'s payload. -/
def SensorValue.Wf : SensorValue → Prop
  | .Temperature v => v < 2 ^ 32
  | .Humidity v => v < 2 ^ 32
  | .Battery v => v < 256
  | .Status _ => True
  | .Raw v => -(2 ^ 31) ≤ v ∧ v < 2 ^ 31

instance (v : SensorValue) : Decidable v.Wf := by
  cases v <;> simp [SensorValue.Wf] <;> infer_instance

/-- The Rust-type ranges of an `UplinkMessage`'s fields (`u8` bytes,
`u64` device id, byte slices of bytes, ASCII wire strings). -/
def UplinkMessage.Wf : UplinkMessage → Prop
  | .Hello d => d < 2 ^ 64
  | .StreamStart lsid target reason => lsid < 256 ∧ asciiStr target ∧ asciiStr reason
  | .StreamData lsid data => lsid < 256 ∧ ∀ b ∈ data, b < 256
  | .StreamClose lsid => lsid < 256
  | .ButtonPress bid _ => bid < 256
  | .SensorUpdate name data => asciiStr name ∧ data.Wf

instance (m : UplinkMessage) : Decidable m.Wf := by
  cases m <;> simp [UplinkMessage.Wf] <;> infer_instance

/-- The Rust-type ranges of a `DownlinkMessage`'s fields. -/
def DownlinkMessage.Wf : DownlinkMessage → Prop
  | .Welcome => True
  | .Error reason => reason < 256

instance (m : DownlinkMessage) : Decidable m.Wf := by
  cases m <;> simp [DownlinkMessage.Wf] <;> infer_instance

/-- One iteration of the bridge's UDP listener loop
(`bridge.rs` 41-60) on a received datagram: parse it as an
`UplinkMessage`; on success dispatch to `handle_packet`, otherwise do
nothing. -/
def recvStep (req : PeerId → Except String StreamId) (now : Nat)
    (datagram : List Nat) (addr : SocketAddr) (st : Sessions) :
    Sessions × List Effect :=
  match deserUplink datagram with
  | some msg => handlePacket req now msg addr st
  | none => (st, [])

/-- A whole run of the listener loop over a list of
`(timestamp, datagram, sender)` triples, collecting the session table. -/
def runBridge (req : PeerId → Except String StreamId)
    (packets : List (Nat × List Nat × SocketAddr)) (st : Sessions) : Sessions :=
  match packets with
  | [] => st
  | (now, datagram, addr) :: rest =>
    runBridge req rest (recvStep req now datagram addr st).1

/-- Whether a frame is the `Hello` connect frame. -/
def UplinkMessage.isHello : UplinkMessage → Bool
  | .Hello _ => true
  | _ => false

/-- A mesh-request outcome function for concrete runs: the stream
request always succeeds with the given id. -/
def reqOk (id : StreamId) : PeerId → Except String StreamId := fun _ => .ok id

/-- A mesh-request outcome function for concrete runs: the runtime is
unreachable. -/
def reqDown : PeerId → Except String StreamId := fun _ => .error ("down")

/-! ## Theorems -/

theorem sendCommand_closed {α : Type} (env : ChannelEnv α)
    (h : env.sendOk = false ∨ env.reply = none) :
    sendCommand env = .error .ChannelClosed := by
  unfold sendCommand
  rcases h with h | h
  · simp [h]
  · cases hs : env.sendOk <;> simp [hs, h]

/-- Claim C3: every command-sending handle operation returns
`ChannelClosed` when the send onto the command queue fails or the
one-shot reply channel is dropped before a reply arrives. -/
theorem C3_channel_closed (envU : ChannelEnv Unit) (envS : ChannelEnv StreamId)
    (envJ : ChannelEnv Json) (topic : String) (data : List Nat) (peer : PeerId)
    (reason : String) (p : Option PeerId)
    (hU : envU.sendOk = false ∨ envU.reply = none)
    (hS : envS.sendOk = false ∨ envS.reply = none)
    (hJ : envJ.sendOk = false ∨ envJ.reply = none) :
    subscribe envU topic = .error .ChannelClosed ∧
    publish envU topic data = .error .ChannelClosed ∧
    request_stream envS peer reason = .error .ChannelClosed ∧
    get_context envJ p = .error .ChannelClosed :=
  ⟨sendCommand_closed envU hU, sendCommand_closed envU hU,
   sendCommand_closed envS hS, sendCommand_closed envJ hJ⟩

/-- Witness for C3 at a concrete environment whose command send fails
and whose reply channel is dropped. -/
theorem C3_channel_closed_witness :
    subscribe ⟨false, none⟩ "t/x" = .error .ChannelClosed ∧
    publish ⟨false, none⟩ "t/x" [1, 2] = .error .ChannelClosed ∧
    request_stream ⟨false, none⟩ "peerA" "file" = .error .ChannelClosed ∧
    get_context ⟨false, none⟩ none = .error .ChannelClosed :=
  C3_channel_closed ⟨false, none⟩ ⟨false, none⟩ ⟨false, none⟩ "t/x" [1, 2]
    "peerA" "file" none (Or.inl rfl) (Or.inl rfl) (Or.inl rfl)

/-- Claim C9: `has_ctx` never returns an error; it returns `Ok true`
exactly when the inner `get_ctx` succeeded and `Ok false` on every
failure, so a `false` result does not distinguish an absent path from an
unreachable runtime (`ChannelClosed`). -/
theorem C9_has_ctx_total (r : Except AviP2pError Json) :
    (∃ b, has_ctx r = .ok b) ∧
    (has_ctx r = .ok true ↔ ∃ v, r = .ok v) ∧
    (∀ e, r = .error e → has_ctx r = .ok false) := by
  cases r <;> simp [has_ctx]

/-- Witness for C9 at the concrete failure `ChannelClosed`. -/
theorem C9_has_ctx_total_witness :
    has_ctx (.error .ChannelClosed) = .ok false :=
  (C9_has_ctx_total (.error .ChannelClosed)).2.2 .ChannelClosed rfl

/-- Claim C8: the channel endpoints an `AviP2pHandle` shares with the
runtime are exactly the command queue, an `mpsc` channel of capacity
100, and the event broadcast, of capacity 1000. -/
theorem C8_shared_channels :
    handleSharedChannels = [commandChannel, eventBroadcastChannel] ∧
    commandChannel.kind = .mpscChan ∧
    commandChannel.capacity = 100 ∧
    eventBroadcastChannel.kind = .broadcastFanout ∧
    eventBroadcastChannel.capacity = 1000 := by
  refine ⟨rfl, rfl, rfl, rfl, rfl⟩

/-- Claim C6: a received datagram that does not parse as an
`UplinkMessage` produces no downlink reply, no handle call, and leaves
the session table unchanged. -/
theorem C6_malformed_dropped (req : PeerId → Except String StreamId) (now : Nat)
    (datagram : List Nat) (addr : SocketAddr) (st : Sessions)
    (h : deserUplink datagram = none) :
    recvStep req now datagram addr st = (st, []) := by
  unfold recvStep
  rw [h]

/-- Witness for C6 at a concrete malformed datagram (invalid variant
tag 9). -/
theorem C6_malformed_dropped_witness :
    deserUplink [9] = none ∧
    recvStep reqDown 0 [9] 3 [(3, ⟨77, []⟩)] = ([(3, ⟨77, []⟩)], []) :=
  ⟨by decide, C6_malformed_dropped reqDown 0 [9] 3 [(3, ⟨77, []⟩)] (by decide)⟩

/-- Claim C10: every non-`Hello` frame from an address with no session
has no effect and leaves the table unchanged; for `StreamData` and
`StreamClose` the same holds when the session exists but the local
stream id is unmapped. -/
theorem C10_no_session_no_effect (req : PeerId → Except String StreamId)
    (now : Nat) (addr : SocketAddr) (st : Sessions) :
    (∀ msg : UplinkMessage, msg.isHello = false → lookupSession st addr = none →
        handlePacket req now msg addr st = (st, [])) ∧
    (∀ lsid data session, lookupSession st addr = some session →
        assocGet session.active_streams lsid = none →
        handlePacket req now (.StreamData lsid data) addr st = (st, []) ∧
        handlePacket req now (.StreamClose lsid) addr st = (st, [])) := by
  constructor
  · intro msg hmsg hnone
    cases msg with
    | Hello d => simp [UplinkMessage.isHello] at hmsg
    | StreamStart lsid target reason => simp [handlePacket, hnone]
    | StreamData lsid data => simp [handlePacket, hnone]
    | StreamClose lsid => simp [handlePacket, hnone]
    | ButtonPress bid pt => simp [handlePacket, hnone]
    | SensorUpdate name data => simp [handlePacket, hnone]
  · intro lsid data session hs hnone
    exact ⟨by simp [handlePacket, hs, hnone], by simp [handlePacket, hs, hnone]⟩

/-- Witness for C10: a `StreamClose` from an unknown address, and a
`StreamData` on an unmapped local stream id of a live session. -/
theorem C10_no_session_no_effect_witness :
    handlePacket reqDown 5 (.StreamClose 2) 1 [] = ([], []) ∧
    handlePacket reqDown 5 (.StreamData 2 [9]) 1 [(1, ⟨42, []⟩)] =
      ([(1, ⟨42, []⟩)], []) :=
  ⟨(C10_no_session_no_effect reqDown 5 1 []).1 (.StreamClose 2) rfl rfl,
   ((C10_no_session_no_effect reqDown 5 1 [(1, ⟨42, []⟩)]).2 2 [9] ⟨42, []⟩
      rfl rfl).1⟩

/-- Claim C4: a `SensorUpdate` from a live session publishes on
`avi/home/device_<id>/sensor/<name>` a JSON object with keys `value`,
`unit` and `ts`, with unit `"C"` for temperature, `"%"` for humidity
and `""` otherwise. -/
theorem C4_sensor_update (req : PeerId → Except String StreamId) (now : Nat)
    (name : String) (val : SensorValue) (addr : SocketAddr) (st : Sessions)
    (session : DeviceSession) (h : lookupSession st addr = some session) :
    handlePacket req now (.SensorUpdate name val) addr st =
      (st, [.publish ("avi/home/device_" ++ toString session.device_id ++ "/sensor/" ++ name)
              (.obj [("value", val.toJson),
                     ("unit", .str val.unitStr),
                     ("ts", .numI now)])]) ∧
    (∀ v, SensorValue.unitStr (.Temperature v) = "C") ∧
    (∀ v, SensorValue.unitStr (.Humidity v) = "%") ∧
    (∀ v, SensorValue.unitStr (.Battery v) = "") ∧
    (∀ v, SensorValue.unitStr (.Status v) = "") ∧
    (∀ v, SensorValue.unitStr (.Raw v) = "") := by
  refine ⟨by simp [handlePacket, h], fun v => rfl, fun v => rfl, fun v => rfl,
    fun v => rfl, fun v => rfl⟩

/-- Witness for C4: a temperature update from device 5555. -/
theorem C4_sensor_update_witness :
    handlePacket reqDown 1700000000 (.SensorUpdate ("temp_kitchen") (.Temperature 1106247680))
        9 [(9, ⟨5555, []⟩)] =
      ([(9, ⟨5555, []⟩)],
       [.publish ("avi/home/device_5555/sensor/temp_kitchen")
          (.obj [("value", .numF 1106247680),
                 ("unit", .str ("C")),
                 ("ts", .numI 1700000000)])]) := by
  have h := (C4_sensor_update reqDown 1700000000 "temp_kitchen" (.Temperature 1106247680)
    9 [(9, ⟨5555, []⟩)] ⟨5555, []⟩ rfl).1
  simpa using h

/-- Claim C1 (failing input): a `StreamStart` frame carrying reason
`"voice"` from a live session makes the bridge issue a mesh stream
request that does not carry the frame's reason — `bridge.rs` line 109
calls `handle.request_stream(peer_id)` without the reason argument
(and its match arm omits the frame's `reason` field), although
`node.rs` declares `request_stream(peer_id, reason)`.  The returned
mesh id is still stored under the local id. -/
theorem C1_reason_not_forwarded :
    handlePacket (reqOk ("mesh-1")) 0 (.StreamStart 1 "gateway" "voice") 7
        [(7, ⟨5555, []⟩)] =
      ([(7, ⟨5555, [(1, "mesh-1")]⟩)], [.requestStream ("gateway") none]) ∧
    Effect.requestStream ("gateway") (some ("voice")) ∉
      (handlePacket (reqOk ("mesh-1")) 0 (.StreamStart 1 "gateway" "voice") 7
        [(7, ⟨5555, []⟩)]).2 := by
  constructor
  · rfl
  · simp [handlePacket, reqOk, lookupSession, assocGet, assocInsert, replaceSession]

/-- Claim C2 (counterexample): the path walk fails with the
`Serialization` error kind, not `PathNotFound`, at an absent key. -/
theorem C2_counterexample :
    get_ctx (.ok (.obj [])) "a" =
      .error (.Serialization ("Key 'a' not found in context")) ∧
    isPathNotFound (get_ctx (.ok (.obj [])) "a") = false := by
  constructor <;> rfl

theorem getCtxWalk_followPath (segs : List String) (cur : Json) :
    (∀ v, followPath segs cur = some v → getCtxWalk segs cur = .ok v) ∧
    (followPath segs cur = none →
      ∃ k, getCtxWalk segs cur =
        .error (.Serialization ("Key '" ++ k ++ "' not found in context"))) := by
  induction segs generalizing cur with
  | nil =>
    refine ⟨fun v hv => ?_, fun hv => by simp [followPath] at hv⟩
    simp only [followPath, Option.some.injEq] at hv
    simp [getCtxWalk, hv]
  | cons key keys ih =>
    cases hg : cur.get key with
    | some next =>
      refine ⟨fun v hv => ?_, fun hv => ?_⟩
      · simp only [followPath, hg] at hv
        simpa [getCtxWalk, hg] using (ih next).1 v hv
      · simp only [followPath, hg] at hv
        obtain ⟨k, hk⟩ := (ih next).2 hv
        exact ⟨k, by simpa [getCtxWalk, hg] using hk⟩
    | none =>
      refine ⟨fun v hv => ?_, fun hv => ⟨key, by simp [getCtxWalk, hg]⟩⟩
      simp [followPath, hg] at hv

/-- Claim C2 (amended): on a non-empty dotted path, `get_ctx` returns
the subtree reached by following the path segments when every segment
is present, and fails with the `Serialization` error kind (message
naming the first absent key) when any segment is absent. -/
theorem C2_path_get (doc : Json) (path : String) (h : path ≠ "") :
    (∀ v, followPath (splitDot path) doc = some v →
        get_ctx (.ok doc) path = .ok v) ∧
    (followPath (splitDot path) doc = none →
        ∃ k, get_ctx (.ok doc) path =
          .error (.Serialization ("Key '" ++ k ++ "' not found in context"))) := by
  simpa [get_ctx, h] using getCtxWalk_followPath (splitDot path) doc

/-- Witness for C2 (amended) at a two-segment path into a concrete
document. -/
theorem C2_path_get_witness :
    get_ctx (.ok (.obj [("a", .obj [("b", .numI 3)])])) "a.b" = .ok (.numI 3) :=
  (C2_path_get (.obj [("a", .obj [("b", .numI 3)])]) "a.b" (by decide)).1
    (.numI 3) rfl

/-- Claim C7 (counterexample): a device at address 7 says `Hello` at
time 0 and then stays silent while the bridge keeps running past the
claimed 120-second idle timeout (further datagrams arrive at 200 s and
400 s from address 8); its session is still in the table.  The
datagrams are the postcard bytes of `Hello{5555}`, `Hello{9999}` and
`ButtonPress{1, Single}`. -/
theorem C7_counterexample :
    lookupSession
      (runBridge reqDown
        [(0, [0, 179, 43], 7), (200, [0, 143, 78], 8), (400, [4, 1, 0], 8)] [])
      7 = some ⟨5555, []⟩ := by
  rfl

theorem find?_filter_of_imp {α : Type} (l : List α) (p q : α → Bool)
    (h : ∀ x, p x = true → q x = true) :
    (l.filter q).find? p = l.find? p := by
  induction l with
  | nil => rfl
  | cons x xs ih =>
    by_cases hp : p x = true
    · have hq := h x hp
      simp [List.filter_cons, hq, List.find?_cons, hp, ih]
    · cases hq : q x <;> simp [List.filter_cons, hq, List.find?_cons, hp, ih]

theorem lookupSession_insertSession (st : Sessions) (addr : SocketAddr)
    (s : DeviceSession) (a : SocketAddr) :
    lookupSession (insertSession st addr s) a =
      if addr = a then some s else lookupSession st a := by
  unfold lookupSession insertSession assocGet assocInsert
  by_cases hk : addr = a
  · simp [List.find?_cons, hk]
  · rw [if_neg hk]
    have heq : ((addr, s).1 == a) = false := beq_eq_false_iff_ne.mpr hk
    rw [List.find?_cons, heq]
    rw [find?_filter_of_imp]
    intro x hx
    have hxa : x.1 = a := beq_iff_eq.mp hx
    have hne : x.1 ≠ addr := fun hcon => hk (hcon ▸ hxa)
    simpa using beq_eq_false_iff_ne.mpr hne

theorem lookupSession_replaceSession_isSome (st : Sessions) (addr : SocketAddr)
    (s : DeviceSession) (a : SocketAddr) :
    (lookupSession (replaceSession st addr s) a).isSome =
      (lookupSession st a).isSome := by
  unfold lookupSession replaceSession assocGet
  induction st with
  | nil => rfl
  | cons x xs ih =>
    by_cases hx : x.1 = addr
    · by_cases ha : addr = a
      · simp [List.find?_cons, hx, ha]
      · have h1 : ((addr, s).1 == a) = false := beq_eq_false_iff_ne.mpr ha
        have h2 : (x.1 == a) = false :=
          beq_eq_false_iff_ne.mpr (fun hcon => ha (hx ▸ hcon))
        simp only [List.map_cons, if_pos hx, List.find?_cons, h1, h2]
        exact ih
    · simp only [List.map_cons, if_neg hx, List.find?_cons]
      cases hxa : x.1 == a
      · exact ih
      · rfl

/-- Claim C7 (amended): bridge sessions never expire — no step of the
listener loop removes a session from the table, so a session present
before any sequence of received datagrams is still present after it. -/
theorem C7_sessions_never_removed :
    (∀ req now datagram addr st a, (lookupSession st a).isSome = true →
        (lookupSession (recvStep req now datagram addr st).1 a).isSome = true) ∧
    (∀ req packets st a, (lookupSession st a).isSome = true →
        (lookupSession (runBridge req packets st) a).isSome = true) := by
  have step : ∀ req now datagram addr st a, (lookupSession st a).isSome = true →
      (lookupSession (recvStep req now datagram addr st).1 a).isSome = true := by
    intro req now datagram addr st a h
    unfold recvStep
    cases hms : deserUplink datagram with
    | none => exact h
    | some msg =>
      cases msg with
      | Hello d =>
        simp only [handlePacket, lookupSession_insertSession]
        by_cases hk : addr = a <;> simp [hk, h]
      | StreamStart lsid target reason =>
        simp only [handlePacket]
        cases hs : lookupSession st addr with
        | none => simpa using h
        | some session =>
          by_cases ht : target = ""
          · simpa [ht] using h
          · cases hr : req target with
            | ok mesh => simpa [ht, hr, lookupSession_replaceSession_isSome] using h
            | error e => simpa [ht, hr] using h
      | StreamData lsid data =>
        simp only [handlePacket]
        cases hs : lookupSession st addr with
        | none => simpa using h
        | some session =>
          cases hg : assocGet session.active_streams lsid with
          | none => simpa [hg] using h
          | some mesh => simpa [hg] using h
      | StreamClose lsid =>
        simp only [handlePacket]
        cases hs : lookupSession st addr with
        | none => simpa using h
        | some session =>
          cases hg : assocGet session.active_streams lsid with
          | none => simpa [hg] using h
          | some mesh => simpa [hg, lookupSession_replaceSession_isSome] using h
      | ButtonPress bid pt =>
        simp only [handlePacket]
        cases hs : lookupSession st addr with
        | none => simpa using h
        | some session => simpa using h
      | SensorUpdate name data =>
        simp only [handlePacket]
        cases hs : lookupSession st addr with
        | none => simpa using h
        | some session => simpa using h
  refine ⟨step, ?_⟩
  intro req packets
  induction packets with
  | nil => intro st a h; exact h
  | cons pkt rest ih =>
    intro st a h
    obtain ⟨now, datagram, addr⟩ := pkt
    exact ih _ _ (step req now datagram addr st a h)

/-- Witness for C7 (amended): the session of address 7 survives a later
datagram from address 8. -/
theorem C7_sessions_never_removed_witness :
    (lookupSession
      (recvStep reqDown 400 [4, 1, 0] 8 [(7, ⟨5555, []⟩)]).1 7).isSome = true :=
  C7_sessions_never_removed.1 reqDown 400 [4, 1, 0] 8 [(7, ⟨5555, []⟩)] 7 rfl

theorem decodeVarint_encodeVarint (n : Nat) (rest : List Nat) :
    decodeVarint (encodeVarint n ++ rest) = some (n, rest) := by
  induction n using Nat.strong_induction_on with
  | _ n ih =>
    rw [encodeVarint]
    by_cases h : n < 128
    · simp [h, decodeVarint]
    · rw [dif_neg h]
      have h2 : ¬(n % 128 + 128 < 128) := by omega
      simp only [List.cons_append, decodeVarint, if_neg h2, List.append_eq]
      rw [ih (n / 128) (Nat.div_lt_self (by omega) (by omega))]
      have h3 : n / 128 * 128 + (n % 128 + 128 - 128) = n := by omega
      simpa using h3

theorem charList_roundtrip (l : List Char) :
    (l.map Char.toNat).map Char.ofNat = l := by
  induction l with
  | nil => rfl
  | cons c cs ih => simp [ih]

theorem parseStr_serStr (s : String) (rest : List Nat) :
    parseStr (serStr s ++ rest) = some (s, rest) := by
  have hlen : s.data.length ≤ (s.data.map Char.toNat ++ rest).length := by
    simp [List.length_append]
  simp only [parseStr, serStr, List.append_assoc, decodeVarint_encodeVarint]
  rw [if_pos hlen]
  have hl : s.data.length = (s.data.map Char.toNat).length := by simp
  rw [hl, List.take_left, List.drop_left, charList_roundtrip]

theorem parseBytes_serBytes (d : List Nat) (rest : List Nat) :
    parseBytes (serBytes d ++ rest) = some (d, rest) := by
  have hlen : d.length ≤ (d ++ rest).length := by simp [List.length_append]
  simp only [parseBytes, serBytes, List.append_assoc, decodeVarint_encodeVarint]
  rw [if_pos hlen, List.take_left, List.drop_left]

theorem parseF32_serF32 (b : Nat) (h : b < 2 ^ 32) (rest : List Nat) :
    parseF32 (serF32 b ++ rest) = some (b, rest) := by
  have hb : b % 256 + 256 * (b / 256 % 256) + 65536 * (b / 65536 % 256) +
      16777216 * (b / 16777216 % 256) = b := by omega
  simp [serF32, parseF32, hb]

theorem unzigzag_zigzag (v : Int) : unzigzag (zigzag v) = v := by
  unfold zigzag unzigzag
  by_cases h : 0 ≤ v
  · rw [if_pos h]
    have h2 : (2 * v).toNat % 2 = 0 := by omega
    rw [if_pos h2]
    omega
  · rw [if_neg h]
    have h2 : ¬((-2 * v - 1).toNat % 2 = 0) := by omega
    rw [if_neg h2]
    omega

theorem parsePressType_serPressType (pt : PressType) (rest : List Nat) :
    parsePressType (serPressType pt ++ rest) = some (pt, rest) := by
  cases pt <;>
    simp [serPressType, parsePressType, decodeVarint_encodeVarint]

theorem parseSensorValue_serSensorValue (v : SensorValue) (h : v.Wf)
    (rest : List Nat) :
    parseSensorValue (serSensorValue v ++ rest) = some (v, rest) := by
  cases v with
  | Temperature b =>
    simp [serSensorValue, parseSensorValue, List.append_assoc,
      decodeVarint_encodeVarint, parseF32_serF32 b h]
  | Humidity b =>
    simp [serSensorValue, parseSensorValue, List.append_assoc,
      decodeVarint_encodeVarint, parseF32_serF32 b h]
  | Battery b =>
    simp [serSensorValue, parseSensorValue, List.append_assoc, List.cons_append,
      decodeVarint_encodeVarint, parseByte]
  | Status b =>
    cases b <;>
      simp [serSensorValue, parseSensorValue, List.append_assoc, List.cons_append,
        decodeVarint_encodeVarint, parseBool, parseByte]
  | Raw n =>
    simp [serSensorValue, parseSensorValue, List.append_assoc,
      decodeVarint_encodeVarint, unzigzag_zigzag]

theorem parseUplink_serUplink (m : UplinkMessage) (h : m.Wf) (rest : List Nat) :
    parseUplink (serUplink m ++ rest) = some (m, rest) := by
  cases m with
  | Hello d =>
    simp [serUplink, parseUplink, List.append_assoc, decodeVarint_encodeVarint]
  | StreamStart lsid target reason =>
    simp [serUplink, parseUplink, List.append_assoc, List.cons_append,
      decodeVarint_encodeVarint, parseByte, parseStr_serStr]
  | StreamData lsid data =>
    simp [serUplink, parseUplink, List.append_assoc, List.cons_append,
      decodeVarint_encodeVarint, parseByte, parseBytes_serBytes]
  | StreamClose lsid =>
    simp [serUplink, parseUplink, List.append_assoc, List.cons_append,
      decodeVarint_encodeVarint, parseByte]
  | ButtonPress bid pt =>
    simp [serUplink, parseUplink, List.append_assoc, List.cons_append,
      decodeVarint_encodeVarint, parseByte, parsePressType_serPressType]
  | SensorUpdate name data =>
    simp [serUplink, parseUplink, List.append_assoc,
      decodeVarint_encodeVarint, parseStr_serStr,
      parseSensorValue_serSensorValue data h.2]

theorem parseDownlink_serDownlink (m : DownlinkMessage) (rest : List Nat) :
    parseDownlink (serDownlink m ++ rest) = some (m, rest) := by
  cases m with
  | Welcome =>
    simp [serDownlink, parseDownlink, decodeVarint_encodeVarint]
  | Error reason =>
    simp [serDownlink, parseDownlink, List.append_assoc, List.cons_append,
      decodeVarint_encodeVarint, parseByte]

/-- Claim C5: serialising and then deserialising any well-formed value
of the wire envelope types (`UplinkMessage`, `DownlinkMessage`) yields
a structurally equal value. -/
theorem C5_wire_roundtrip :
    (∀ m : UplinkMessage, m.Wf → deserUplink (serUplink m) = some m) ∧
    (∀ m : DownlinkMessage, m.Wf → deserDownlink (serDownlink m) = some m) := by
  constructor
  · intro m h
    unfold deserUplink
    have hp := parseUplink_serUplink m h []
    rw [List.append_nil] at hp
    rw [hp]
    rfl
  · intro m _
    unfold deserDownlink
    have hp := parseDownlink_serDownlink m []
    rw [List.append_nil] at hp
    rw [hp]
    rfl

/-- Witness for C5 at concrete envelopes of every field shape. -/
theorem C5_wire_roundtrip_witness :
    ((UplinkMessage.StreamStart 3 "gateway" "file").Wf ∧
      deserUplink (serUplink (.StreamStart 3 "gateway" "file")) =
        some (.StreamStart 3 "gateway" "file")) ∧
    ((UplinkMessage.SensorUpdate ("temp") (.Temperature 1106247680)).Wf ∧
      deserUplink (serUplink (.SensorUpdate ("temp") (.Temperature 1106247680))) =
        some (.SensorUpdate ("temp") (.Temperature 1106247680))) ∧
    ((DownlinkMessage.Error 2).Wf ∧
      deserDownlink (serDownlink (.Error 2)) = some (.Error 2)) :=
  ⟨⟨by decide, C5_wire_roundtrip.1 (.StreamStart 3 "gateway" "file") (by decide)⟩,
   ⟨by decide, C5_wire_roundtrip.1 (.SensorUpdate ("temp") (.Temperature 1106247680))
      (by decide)⟩,
   ⟨by decide, C5_wire_roundtrip.2 (.Error 2) (by decide)⟩⟩

end AviDevice
